import Mathlib

/-
Shallow embedding of the homebridge-eufy-robovac plugin: the RoboVac
device-session class (eufy-robovac.ts, src/unnamed/part_000) and the
EufyRoboVacAccessory adapter (src/index.ts).

The TuyAPI transport is an opaque external collaborator.  Its behaviour is
modelled by an explicit environment `Env` of oracle responses (whether
find/connect/get/set succeed, what the full-schema read returns, and the
current clock value), and every modelled operation returns, besides its
result and the updated session state, the list of transport messages it
emitted on the wire.  Thrown JS exceptions become `Except.error`.
-/

/-- A value stored under a data-point code in a set request
(string | number | boolean in the source). -/
inductive DpValue where
  | b (x : Bool)
  | s (x : String)
  | n (x : Int)
deriving DecidableEq

/-- The typed dps record of StatusResponse (eufy-robovac.ts lines 56-70).
Each field carries the data-point code of the source interface. -/
structure Dps where
  dp1 : Bool
  playPause : Bool
  direction : String
  workMode : String
  workStatus : String
  goHomeFlag : Bool
  cleanSpeed : String
  findRobot : Bool
  batteryLevel : Int
  errorCode : String
deriving DecidableEq

/-- StatusResponse: devId plus the dps record. -/
structure StatusResponse where
  devId : String
  dps : Dps
deriving DecidableEq

/-- One outbound transport message to the TuyAPI collaborator. -/
inductive Msg where
  | find
  | connect
  | get
  | set (multiple : Bool) (data : List (String × DpValue))
deriving DecidableEq

/-- Failure taxonomy: a configuration error thrown by the RoboVac
constructor, transport-level failures, and a JS TypeError from reading
dps off a null statuses field. -/
inductive Err where
  | configuration
  | connection
  | deviceUnreachable
  | command
  | nullAccess
deriving DecidableEq

/-- Oracle responses of the opaque transport for one operation, plus the
clock value returned by Date getTime. -/
structure Env where
  now : Nat
  findOk : Bool
  connectOk : Bool
  getOk : Bool
  getValue : StatusResponse
  setOk : Bool
deriving DecidableEq

/-- The configuration record the adapter hands to the RoboVac constructor
(index.ts lines 53-58). -/
structure Config where
  deviceId : String
  localKey : String
  ip : String
  port : Nat
deriving DecidableEq

/-- Mutable fields of a RoboVac instance: the connected flag, the cached
statuses snapshot (null before the first successful read), its capture
timestamp (null initially), and whether the transport already knows the
device id and ip (api.device.id and api.device.ip in doWork). -/
structure RoboVacState where
  connected : Bool
  statuses : Option StatusResponse
  lastStatusUpdate : Option Nat
  deviceResolved : Bool
deriving DecidableEq

/-- Result of one modelled async operation: its value or thrown error, the
state of the RoboVac instance afterwards, and the transport messages sent. -/
abbrev RVResult (α : Type) := Except Err α × RoboVacState × List Msg

-- Data-point code constants (eufy-robovac.ts lines 76-84).
def RoboVac.PLAY_PAUSE : String := "2"
def RoboVac.DIRECTION : String := "3"
def RoboVac.WORK_MODE : String := "5"
def RoboVac.WORK_STATUS : String := "15"
def RoboVac.GO_HOME : String := "101"
def RoboVac.CLEAN_SPEED : String := "102"
def RoboVac.FIND_ROBOT : String := "103"
def RoboVac.BATTERY_LEVEL : String := "104"
def RoboVac.ERROR_CODE : String := "106"

-- WorkStatus string enum (eufy-robovac.ts lines 26-39).
def WorkStatus.RUNNING : String := "Running"
def WorkStatus.STAND_BY : String := "standby"
def WorkStatus.SLEEPING : String := "Sleeping"
def WorkStatus.CHARGING : String := "Charging"
def WorkStatus.COMPLETED : String := "completed"
def WorkStatus.RECHARGE_NEEDED : String := "Recharge"

-- ErrorCode string enum member used by the adapter.
def ErrorCode.NO_ERROR : String := "no_error"

/-- maxStatusUpdateAge = 1000 * (1 * 30), thirty seconds in milliseconds. -/
def RoboVac.maxStatusUpdateAge : Nat := 1000 * (1 * 30)

/-- The staleness test of getStatuses:
(new Date()).getTime() - this.lastStatusUpdate > this.maxStatusUpdateAge.
A null lastStatusUpdate coerces to 0 in the JS subtraction; Nat subtraction
truncates at 0 exactly as the negative JS difference fails the > test. -/
def RoboVac.stale (now : Nat) : Option Nat → Bool
  | none => decide (now > RoboVac.maxStatusUpdateAge)
  | some t => decide (now - t > RoboVac.maxStatusUpdateAge)

/-- The RoboVac constructor (eufy-robovac.ts lines 97-138): throws unless
config.deviceId is truthy, otherwise builds the instance with connected
false, null statuses and null lastStatusUpdate.  The TuyAPI handle knows
the device when both id and ip were configured.  The constructor only
builds the handle and registers event handlers; the empty message list
records that it performs no network activity. -/
def RoboVac.mk (c : Config) : Except Err (RoboVacState × List Msg) :=
  if c.deviceId = "" then
    .error Err.configuration
  else
    .ok ({ connected := false
           statuses := none
           lastStatusUpdate := none
           deviceResolved := (c.deviceId != "") && (c.ip != "") }, [])

/-- The connected event handler: sets this.connected = true. -/
def RoboVac.onConnected (s : RoboVacState) : RoboVacState :=
  { s with connected := true }

/-- The disconnected event handler: sets this.connected = false. -/
def RoboVac.onDisconnected (s : RoboVacState) : RoboVacState :=
  { s with connected := false }

/-- The dp-refresh event handler (eufy-robovac.ts lines 128-131): it only
logs the pushed data and touches no instance field. -/
def RoboVac.onDpRefresh (_data : StatusResponse) (s : RoboVacState) : RoboVacState :=
  s

/-- The data event handler (eufy-robovac.ts lines 133-136): it only logs
the pushed data and touches no instance field. -/
def RoboVac.onData (_data : StatusResponse) (s : RoboVacState) : RoboVacState :=
  s

/-- The discovery step at the top of doWork: when the transport does not
know the device, api.find is attempted; a failure is logged and swallowed. -/
def RoboVac.findStep (env : Env) (s : RoboVacState) : RoboVacState × List Msg :=
  if s.deviceResolved then
    (s, [])
  else if env.findOk then
    ({ s with deviceResolved := true }, [Msg.find])
  else
    (s, [Msg.find])

/-- connect(): if not this.connected, await api.connect().  A successful
connect fires the connected event, setting the flag; a failed connect
rejects and the error propagates. -/
def RoboVac.connectStep (env : Env) (s : RoboVacState) : Except Err RoboVacState × List Msg :=
  if s.connected then
    (.ok s, [])
  else if env.connectOk then
    (.ok (RoboVac.onConnected s), [Msg.connect])
  else
    (.error Err.connection, [Msg.connect])

/-- doWork (eufy-robovac.ts lines 152-164): optional swallowed discovery,
then connect, then the work closure. -/
def RoboVac.doWork (env : Env) (s : RoboVacState)
    (work : RoboVacState → RVResult α) : RVResult α :=
  match RoboVac.findStep env s with
  | (s1, t1) =>
    match RoboVac.connectStep env s1 with
    | (.ok s2, t2) =>
      match work s2 with
      | (r, s3, t3) => (r, s3, t1 ++ t2 ++ t3)
    | (.error e, t2) => (.error e, s1, t1 ++ t2)

/-- getStatuses (eufy-robovac.ts lines 166-176): when forced or stale,
doWork issues a full-schema read, stores it in this.statuses, stamps
this.lastStatusUpdate and returns it; otherwise the cached statuses value
(possibly still null) is returned with no transport traffic. -/
def RoboVac.getStatuses (env : Env) (force : Bool) (s : RoboVacState) :
    RVResult (Option StatusResponse) :=
  if force || RoboVac.stale env.now s.lastStatusUpdate then
    RoboVac.doWork env s (fun s1 =>
      if env.getOk then
        (.ok (some env.getValue),
         { s1 with statuses := some env.getValue, lastStatusUpdate := some env.now },
         [Msg.get])
      else
        (.error Err.deviceUnreachable, s1, [Msg.get]))
  else
    (.ok s.statuses, s, [])

/-- set (eufy-robovac.ts lines 283-289): one api.set call with
multiple true carrying the whole data mapping. -/
def RoboVac.set (env : Env) (data : List (String × DpValue)) (s : RoboVacState) :
    RVResult Unit :=
  if env.setOk then
    (.ok (), s, [Msg.set true data])
  else
    (.error Err.command, s, [Msg.set true data])

/-- getPlayPause: projects dps[PLAY_PAUSE] out of getStatuses; reading dps
off a null statuses throws a TypeError, modelled as Err.nullAccess. -/
def RoboVac.getPlayPause (env : Env) (force : Bool) (s : RoboVacState) : RVResult Bool :=
  match RoboVac.getStatuses env force s with
  | (.ok (some st), s1, t) => (.ok st.dps.playPause, s1, t)
  | (.ok none, s1, t) => (.error Err.nullAccess, s1, t)
  | (.error e, s1, t) => (.error e, s1, t)

/-- setPlayPause: doWork around a single set of the PLAY_PAUSE code. -/
def RoboVac.setPlayPause (env : Env) (state : Bool) (s : RoboVacState) : RVResult Unit :=
  RoboVac.doWork env s (fun s1 =>
    RoboVac.set env [(RoboVac.PLAY_PAUSE, DpValue.b state)] s1)

/-- play (eufy-robovac.ts lines 204-206): setPlayPause(true). -/
def RoboVac.play (env : Env) (s : RoboVacState) : RVResult Unit :=
  RoboVac.setPlayPause env true s

/-- pause (eufy-robovac.ts lines 208-210): the source also calls
setPlayPause(true) here. -/
def RoboVac.pause (env : Env) (s : RoboVacState) : RVResult Unit :=
  RoboVac.setPlayPause env true s

/-- getWorkStatus: projects dps[WORK_STATUS] out of getStatuses. -/
def RoboVac.getWorkStatus (env : Env) (force : Bool) (s : RoboVacState) : RVResult String :=
  match RoboVac.getStatuses env force s with
  | (.ok (some st), s1, t) => (.ok st.dps.workStatus, s1, t)
  | (.ok none, s1, t) => (.error Err.nullAccess, s1, t)
  | (.error e, s1, t) => (.error e, s1, t)

/-- goHome (eufy-robovac.ts lines 246-258): a forced work-status query;
if the device is already Completed or Charging, return without commands;
otherwise doWork around a single set of the GO_HOME code to true. -/
def RoboVac.goHome (env : Env) (s : RoboVacState) : RVResult Unit :=
  match RoboVac.getWorkStatus env true s with
  | (.error e, s1, t1) => (.error e, s1, t1)
  | (.ok ws, s1, t1) =>
    if ws = WorkStatus.COMPLETED ∨ ws = WorkStatus.CHARGING then
      (.ok (), s1, t1)
    else
      match RoboVac.doWork env s1 (fun s2 =>
          RoboVac.set env [(RoboVac.GO_HOME, DpValue.b true)] s2) with
      | (r, s2, t2) => (r, s2, t1 ++ t2)

/-- setFindRobot: doWork around a single set of the FIND_ROBOT code. -/
def RoboVac.setFindRobot (env : Env) (state : Bool) (s : RoboVacState) : RVResult Unit :=
  RoboVac.doWork env s (fun s1 =>
    RoboVac.set env [(RoboVac.FIND_ROBOT, DpValue.b state)] s1)

/-- getFindRobot: projects dps[FIND_ROBOT] out of getStatuses. -/
def RoboVac.getFindRobot (env : Env) (force : Bool) (s : RoboVacState) : RVResult Bool :=
  match RoboVac.getStatuses env force s with
  | (.ok (some st), s1, t) => (.ok st.dps.findRobot, s1, t)
  | (.ok none, s1, t) => (.error Err.nullAccess, s1, t)
  | (.error e, s1, t) => (.error e, s1, t)

/-- getBatteyLevel (sic, the source name): projects dps[BATTERY_LEVEL]. -/
def RoboVac.getBatteyLevel (env : Env) (force : Bool) (s : RoboVacState) : RVResult Int :=
  match RoboVac.getStatuses env force s with
  | (.ok (some st), s1, t) => (.ok st.dps.batteryLevel, s1, t)
  | (.ok none, s1, t) => (.error Err.nullAccess, s1, t)
  | (.error e, s1, t) => (.error e, s1, t)

/-- getErrorCode: projects dps[ERROR_CODE] out of getStatuses. -/
def RoboVac.getErrorCode (env : Env) (force : Bool) (s : RoboVacState) : RVResult String :=
  match RoboVac.getStatuses env force s with
  | (.ok (some st), s1, t) => (.ok st.dps.errorCode, s1, t)
  | (.ok none, s1, t) => (.error Err.nullAccess, s1, t)
  | (.error e, s1, t) => (.error e, s1, t)

/-
Adapter layer: EufyRoboVacAccessory (index.ts).  A GET handler records the
values it passes to its HomeKit completion callback; HAP characteristic
constants are the numeric values of the HAP specification.
-/

/-- A value pushed to a characteristic callback (boolean or number). -/
inductive CbVal where
  | b (x : Bool)
  | n (x : Int)
deriving DecidableEq

/-- HAP Characteristic.ChargingState.CHARGING. -/
def ChargingState.CHARGING : Int := 1

/-- HAP Characteristic.ChargingState.NOT_CHARGEABLE. -/
def ChargingState.NOT_CHARGEABLE : Int := 2

/-- HAP Characteristic.StatusLowBattery.BATTERY_LEVEL_LOW. -/
def StatusLowBattery.BATTERY_LEVEL_LOW : Int := 1

/-- HAP Characteristic.StatusLowBattery.BATTERY_LEVEL_NORMAL. -/
def StatusLowBattery.BATTERY_LEVEL_NORMAL : Int := 0

/-- setup (index.ts lines 111-114): construct a fresh RoboVac from
this.config and await its first getStatuses(); either step may throw. -/
def EufyRoboVacAccessory.setup (env : Env) (cfg : Config) : Except Err RoboVacState :=
  match RoboVac.mk cfg with
  | .error e => .error e
  | .ok (s0, _) =>
    match RoboVac.getStatuses env false s0 with
    | (.ok _, s1, _) => .ok s1
    | (.error e, _, _) => .error e

/-- getCleanState (index.ts lines 116-128).  The try branch passes
getPlayPause(true) to the callback; the catch branch awaits setup() and
retries with a fresh no-op callback, so the original callback receives
nothing on that path.  Each recorded invocation is tagged with whether the
callback invoked is the original one handed in by HomeKit; the recursion
is fuelled by one Env per attempt. -/
def EufyRoboVacAccessory.getCleanState :
    List Env → RoboVacState → Config → Bool → List (Bool × CbVal)
  | [], _, _, _ => []
  | env :: rest, s, cfg, isOrig =>
    match RoboVac.getPlayPause env true s with
    | (.ok v, _, _) => [(isOrig, CbVal.b v)]
    | (.error _, _, _) =>
      match EufyRoboVacAccessory.setup env cfg with
      | .error _ => []
      | .ok s1 => EufyRoboVacAccessory.getCleanState rest s1 cfg false

/-- setCleanState (index.ts lines 130-138): await setPlayPause(state);
when state is falsy, sleep 2000 ms then await goHome(); finally invoke the
completion callback.  The event trace interleaves transport messages with
the sleep and the callback signal. -/
inductive Ev where
  | msg (m : Msg)
  | sleep (ms : Nat)
  | callback
deriving DecidableEq

def EufyRoboVacAccessory.setCleanState (env : Env) (state : Bool) (s : RoboVacState) :
    Except Err Unit × RoboVacState × List Ev :=
  match RoboVac.setPlayPause env state s with
  | (.error e, s1, t1) => (.error e, s1, t1.map Ev.msg)
  | (.ok _, s1, t1) =>
    if state then
      (.ok (), s1, t1.map Ev.msg ++ [Ev.callback])
    else
      match RoboVac.goHome env s1 with
      | (.error e, s2, t2) =>
        (.error e, s2, t1.map Ev.msg ++ Ev.sleep 2000 :: t2.map Ev.msg)
      | (.ok _, s2, t2) =>
        (.ok (), s2, t1.map Ev.msg ++ Ev.sleep 2000 :: (t2.map Ev.msg ++ [Ev.callback]))

/-- getBatteryLevel (index.ts lines 140-149): push the level on success,
push 0 on any thrown error. -/
def EufyRoboVacAccessory.getBatteryLevel (env : Env) (s : RoboVacState) :
    List CbVal × RoboVacState × List Msg :=
  match RoboVac.getBatteyLevel env false s with
  | (.ok v, s1, t) => ([CbVal.n v], s1, t)
  | (.error _, s1, t) => ([CbVal.n 0], s1, t)

/-- getChargingState (index.ts lines 151-160): CHARGING when the work
status equals WorkStatus.CHARGING, NOT_CHARGEABLE otherwise; push false on
any thrown error. -/
def EufyRoboVacAccessory.getChargingState (env : Env) (s : RoboVacState) :
    List CbVal × RoboVacState × List Msg :=
  match RoboVac.getWorkStatus env false s with
  | (.ok ws, s1, t) =>
    ([if ws = WorkStatus.CHARGING then CbVal.n ChargingState.CHARGING
      else CbVal.n ChargingState.NOT_CHARGEABLE], s1, t)
  | (.error _, s1, t) => ([CbVal.b false], s1, t)

/-- getStatusLowBattery (index.ts lines 162-169): BATTERY_LEVEL_LOW when
the battery level is below 30, BATTERY_LEVEL_NORMAL otherwise; push false
on any thrown error. -/
def EufyRoboVacAccessory.getStatusLowBattery (env : Env) (s : RoboVacState) :
    List CbVal × RoboVacState × List Msg :=
  match RoboVac.getBatteyLevel env false s with
  | (.ok v, s1, t) =>
    ([if v < 30 then CbVal.n StatusLowBattery.BATTERY_LEVEL_LOW
      else CbVal.n StatusLowBattery.BATTERY_LEVEL_NORMAL], s1, t)
  | (.error _, s1, t) => ([CbVal.b false], s1, t)

/-- getFindRobot (index.ts lines 171-179): push the flag on success,
push false on any thrown error. -/
def EufyRoboVacAccessory.getFindRobot (env : Env) (s : RoboVacState) :
    List CbVal × RoboVacState × List Msg :=
  match RoboVac.getFindRobot env false s with
  | (.ok v, s1, t) => ([CbVal.b v], s1, t)
  | (.error _, s1, t) => ([CbVal.b false], s1, t)

/-- getErrorStatus (index.ts lines 187-193): false when the error code is
the no_error member, true otherwise; push false on any thrown error. -/
def EufyRoboVacAccessory.getErrorStatus (env : Env) (s : RoboVacState) :
    List CbVal × RoboVacState × List Msg :=
  match RoboVac.getErrorCode env false s with
  | (.ok v, s1, t) =>
    ([if v = ErrorCode.NO_ERROR then CbVal.b false else CbVal.b true], s1, t)
  | (.error _, s1, t) => ([CbVal.b false], s1, t)

/-- Recognises a set message in a trace. -/
def isSetMsg : Msg → Bool
  | .set _ _ => true
  | _ => false

/-- Recognises a set message that writes the GO_HOME data point. -/
def isGoHomeSet : Msg → Bool
  | .set _ data => data.any (fun kv => kv.1 = RoboVac.GO_HOME)
  | _ => false

/-
Helper lemmas shared by the claim theorems below.
-/

/-- On a successful connection path, doWork runs its work closure on a
connected state with the cache untouched, prefixing only discovery and
connect traffic to the trace. -/
theorem doWork_success {α : Type} (env : Env) (s : RoboVacState)
    (work : RoboVacState → RVResult α) (h : (s.connected || env.connectOk) = true) :
    ∃ pre s1, RoboVac.doWork env s work = ((work s1).1, (work s1).2.1, pre ++ (work s1).2.2)
      ∧ (∀ m ∈ pre, m = Msg.find ∨ m = Msg.connect)
      ∧ s1.connected = true
      ∧ s1.statuses = s.statuses ∧ s1.lastStatusUpdate = s.lastStatusUpdate := by
  cases s with
  | mk conn st last dev =>
    simp only [RoboVac.doWork, RoboVac.findStep, RoboVac.connectStep, RoboVac.onConnected]
    cases conn <;> cases dev <;> cases hf : env.findOk <;> simp_all <;>
      first
        | exact ⟨[], _, rfl, by simp, rfl, rfl, rfl⟩
        | exact ⟨[Msg.find], _, ⟨rfl, rfl, rfl⟩, by simp, rfl, rfl, rfl⟩
        | exact ⟨[Msg.connect], _, ⟨rfl, rfl, rfl⟩, by simp, rfl, rfl, rfl⟩
        | exact ⟨[Msg.find, Msg.connect], _, ⟨rfl, rfl, rfl⟩, by simp, rfl, rfl, rfl⟩

/-- A forced status query on a successful connection path with a
successful read: it returns the fresh transport value, stores it with the
current timestamp, and emits discovery/connect traffic followed by one
full-schema read. -/
theorem getStatuses_forced_success (env : Env) (s : RoboVacState)
    (hc : (s.connected || env.connectOk) = true) (hg : env.getOk = true) :
    ∃ pre s1, RoboVac.getStatuses env true s = (.ok (some env.getValue), s1, pre ++ [Msg.get])
      ∧ (∀ m ∈ pre, m = Msg.find ∨ m = Msg.connect)
      ∧ s1.connected = true
      ∧ s1.statuses = some env.getValue ∧ s1.lastStatusUpdate = some env.now := by
  obtain ⟨pre, s1, hw, hpre, hconn, hst, hlast⟩ :=
    doWork_success env s (fun s2 =>
      if env.getOk then
        (.ok (some env.getValue),
         { s2 with statuses := some env.getValue, lastStatusUpdate := some env.now },
         [Msg.get])
      else
        (.error Err.deviceUnreachable, s2, [Msg.get])) hc
  have hdef : RoboVac.getStatuses env true s
      = RoboVac.doWork env s (fun s2 =>
        if env.getOk then
          (.ok (some env.getValue),
           { s2 with statuses := some env.getValue, lastStatusUpdate := some env.now },
           [Msg.get])
        else
          (.error Err.deviceUnreachable, s2, [Msg.get])) := rfl
  refine ⟨pre, { s1 with statuses := some env.getValue, lastStatusUpdate := some env.now },
    ?_, hpre, by simp [hconn], by simp, by simp⟩
  rw [hdef, hw]
  simp [hg]

/-- C6: RoboVac.set delivers every mapping of data-point codes to values
to the transport as a single outbound multi-field message carrying the
whole mapping, never as a sequence of per-field messages. -/
theorem set_delivers_single_multifield_message
    (env : Env) (data : List (String × DpValue)) (s : RoboVacState) :
    (RoboVac.set env data s).2.2 = [Msg.set true data] := by
  unfold RoboVac.set
  cases h : env.setOk <;> simp [h]

/-- C9: play and pause are extensionally equal, and a pause run issues
exactly one set message - writing the play-pause data point to true -
whenever the session reaches the transport, and none otherwise; in
particular pause never writes false to the play-pause data point. -/
theorem play_pause_extensionally_equal :
    (∀ env s, RoboVac.pause env s = RoboVac.play env s)
    ∧ (∀ env s, ((RoboVac.pause env s).2.2.filter isSetMsg)
        = if s.connected || env.connectOk then
            [Msg.set true [(RoboVac.PLAY_PAUSE, DpValue.b true)]]
          else []) := by
  refine ⟨fun env s => rfl, fun env s => ?_⟩
  cases s with
  | mk conn st last dev =>
    simp only [RoboVac.pause, RoboVac.setPlayPause, RoboVac.doWork, RoboVac.findStep,
      RoboVac.connectStep, RoboVac.onConnected, RoboVac.set]
    cases conn <;> cases dev <;> cases hf : env.findOk <;> cases hc : env.connectOk <;>
      cases hs : env.setOk <;> simp_all [isSetMsg]

/-- C10: the data and dp-refresh transport handlers leave the instance
state untouched; a set call leaves it untouched as well; and getStatuses
either leaves the cached snapshot and its timestamp unchanged or installs
the fresh transport value with the current timestamp, the latter only
when a successful full-schema read appears in its trace. -/
theorem push_handlers_do_not_touch_cache :
    (∀ (d : StatusResponse) (s : RoboVacState), RoboVac.onData d s = s)
    ∧ (∀ (d : StatusResponse) (s : RoboVacState), RoboVac.onDpRefresh d s = s)
    ∧ (∀ env data s, (RoboVac.set env data s).2.1 = s)
    ∧ (∀ env force s,
        ((RoboVac.getStatuses env force s).2.1.statuses = s.statuses
          ∧ (RoboVac.getStatuses env force s).2.1.lastStatusUpdate = s.lastStatusUpdate)
        ∨ ((RoboVac.getStatuses env force s).2.1.statuses = some env.getValue
          ∧ (RoboVac.getStatuses env force s).2.1.lastStatusUpdate = some env.now
          ∧ env.getOk = true ∧ Msg.get ∈ (RoboVac.getStatuses env force s).2.2)) := by
  refine ⟨fun d s => rfl, fun d s => rfl, fun env data s => ?_, fun env force s => ?_⟩
  · unfold RoboVac.set
    cases h : env.setOk <;> simp [h]
  · cases s with
    | mk conn st last dev =>
      unfold RoboVac.getStatuses RoboVac.doWork RoboVac.findStep RoboVac.connectStep
        RoboVac.onConnected
      cases force <;> cases hstale : RoboVac.stale env.now last <;> cases conn <;>
        cases dev <;> cases hf : env.findOk <;> cases hc : env.connectOk <;>
        cases hg : env.getOk <;> simp_all


/-- A sample dps record for concrete witness instances. -/
def sampleDps (battery : Int) : Dps :=
  { dp1 := false
    playPause := false
    direction := ""
    workMode := ""
    workStatus := ""
    goHomeFlag := false
    cleanSpeed := ""
    findRobot := false
    batteryLevel := battery
    errorCode := "" }

/-- A sample status response for concrete witness instances. -/
def sampleStatus (battery : Int) : StatusResponse :=
  { devId := "", dps := sampleDps battery }

/-- A sample all-succeeding transport environment for witness instances. -/
def sampleEnv (now : Nat) (battery : Int) : Env :=
  { now := now
    findOk := true
    connectOk := true
    getOk := true
    getValue := sampleStatus battery
    setOk := true }

/-- A sample connected session state with a cached snapshot captured at
time t, for witness instances. -/
def sampleState (battery : Int) (t : Nat) : RoboVacState :=
  { connected := true
    statuses := some (sampleStatus battery)
    lastStatusUpdate := some t
    deviceResolved := true }

/-- C2 counterexample: the RoboVac constructor succeeds on a configuration
whose deviceId is non-empty while localKey (the shared secret key) is
empty, so an empty localKey does not make construction fail. -/
theorem construction_accepts_empty_localKey :
    RoboVac.mk { deviceId := "device1", localKey := "", ip := "", port := 6668 }
      = .ok ({ connected := false
               statuses := none
               lastStatusUpdate := none
               deviceResolved := false }, []) := rfl

/-- C2 amended: construction fails with the configuration error exactly
when deviceId is empty, and in every case performs no network activity;
localKey is never validated, so construction succeeds whenever deviceId
alone is non-empty. -/
theorem construction_checks_deviceId_only (c : Config) :
    (RoboVac.mk c = .error Err.configuration ↔ c.deviceId = "")
    ∧ (c.deviceId ≠ "" →
        RoboVac.mk c = .ok ({ connected := false
                              statuses := none
                              lastStatusUpdate := none
                              deviceResolved := (c.deviceId != "") && (c.ip != "") }, [])) := by
  unfold RoboVac.mk
  by_cases h : c.deviceId = "" <;> simp [h]

/-- Witness for the amended C2 theorem at a concrete configuration. -/
theorem construction_checks_deviceId_only_witness :
    ("device1" : String) ≠ ""
    ∧ RoboVac.mk { deviceId := "device1", localKey := "k", ip := "10.0.0.9", port := 6668 }
        = .ok ({ connected := false
                 statuses := none
                 lastStatusUpdate := none
                 deviceResolved := true }, []) :=
  ⟨by decide,
   (construction_checks_deviceId_only
     { deviceId := "device1", localKey := "k", ip := "10.0.0.9", port := 6668 }).2
     (by decide)⟩

/-- C4: a status query with force=false against a cached snapshot younger
than the freshness window returns exactly the cached snapshot with no
transport traffic; and whenever a status query completes a full-schema
read, the cached snapshot and its capture timestamp are replaced wholesale
by the read result and the current time. -/
theorem getStatuses_cache_fresh_and_replace :
    (∀ env s st t, s.statuses = some st → s.lastStatusUpdate = some t →
       env.now - t < RoboVac.maxStatusUpdateAge →
       RoboVac.getStatuses env false s = (.ok (some st), s, []))
    ∧ (∀ env force s, Msg.get ∈ (RoboVac.getStatuses env force s).2.2 →
        env.getOk = true →
        (RoboVac.getStatuses env force s).2.1.statuses = some env.getValue
        ∧ (RoboVac.getStatuses env force s).2.1.lastStatusUpdate = some env.now) := by
  constructor
  · intro env s st t hs ht hlt
    have hstale : RoboVac.stale env.now s.lastStatusUpdate = false := by
      rw [ht]
      simp only [RoboVac.stale, decide_eq_false_iff_not]
      omega
    simp [RoboVac.getStatuses, hstale, hs]
  · intro env force s hmem hg
    cases s with
    | mk conn st last dev =>
      unfold RoboVac.getStatuses RoboVac.doWork RoboVac.findStep RoboVac.connectStep
        RoboVac.onConnected at hmem ⊢
      cases force <;> cases hstale : RoboVac.stale env.now last <;> cases conn <;>
        cases dev <;> cases hf : env.findOk <;> cases hc : env.connectOk <;> simp_all

/-- Witness for C4: the spec scenario of a snapshot with battery 55
captured ten seconds before a force=false query. -/
theorem getStatuses_cache_fresh_and_replace_witness :
    RoboVac.getStatuses (sampleEnv 15000 100) false (sampleState 55 5000)
      = (.ok (some (sampleStatus 55)), sampleState 55 5000, []) :=
  getStatuses_cache_fresh_and_replace.1 _ _ _ 5000 rfl rfl
    (by norm_num [sampleEnv, RoboVac.maxStatusUpdateAge])

/-- C5: with force=true the status query always issues a full-schema
transport read and returns the transport result - never the previously
cached snapshot - on every connection path that reaches the transport. -/
theorem getStatuses_force_always_reads (env : Env) (s : RoboVacState)
    (hc : env.connectOk = true) :
    Msg.get ∈ (RoboVac.getStatuses env true s).2.2
    ∧ (RoboVac.getStatuses env true s).1
        = (if env.getOk then .ok (some env.getValue) else .error Err.deviceUnreachable) := by
  cases s with
  | mk conn st last dev =>
    unfold RoboVac.getStatuses RoboVac.doWork RoboVac.findStep RoboVac.connectStep
      RoboVac.onConnected
    cases conn <;> cases dev <;> cases hf : env.findOk <;> cases hg : env.getOk <;> simp_all

/-- Witness for C5 at a concrete environment and a fresh cached snapshot:
the transport read happens and its value, not the cache, is returned. -/
theorem getStatuses_force_always_reads_witness :
    Msg.get ∈ (RoboVac.getStatuses (sampleEnv 15000 80) true (sampleState 55 14000)).2.2
    ∧ (RoboVac.getStatuses (sampleEnv 15000 80) true (sampleState 55 14000)).1
        = .ok (some (sampleStatus 80)) :=
  getStatuses_force_always_reads (sampleEnv 15000 80) (sampleState 55 14000) rfl

/-- A forced work-status query on a successful path returns the work
status of the fresh transport value and leaves the session connected. -/
theorem getWorkStatus_forced_success (env : Env) (s : RoboVacState)
    (hc : (s.connected || env.connectOk) = true) (hg : env.getOk = true) :
    ∃ pre s1, RoboVac.getWorkStatus env true s
        = (.ok env.getValue.dps.workStatus, s1, pre ++ [Msg.get])
      ∧ (∀ m ∈ pre, m = Msg.find ∨ m = Msg.connect)
      ∧ s1.connected = true := by
  obtain ⟨pre, s1, hq, hpre, hconn, _, _⟩ := getStatuses_forced_success env s hc hg
  refine ⟨pre, s1, ?_, hpre, hconn⟩
  unfold RoboVac.getWorkStatus
  rw [hq]

/-- A trace made of discovery and connect messages contains no set. -/
theorem filter_set_of_findConnect {pre : List Msg}
    (hpre : ∀ m ∈ pre, m = Msg.find ∨ m = Msg.connect) :
    pre.filter isSetMsg = [] := by
  rw [List.filter_eq_nil_iff]
  intro m hm
  rcases hpre m hm with h | h <;> simp [h, isSetMsg]

/-- C3: goHome first performs a forced work-status query; when the status
it returns is Completed or Charging it emits no set message at all, and
for every other status it emits exactly one set message, writing the
go-home data point to true. -/
theorem goHome_only_when_not_docked (env : Env) (s : RoboVacState)
    (hc : env.connectOk = true) (hg : env.getOk = true) :
    ((env.getValue.dps.workStatus = WorkStatus.COMPLETED
        ∨ env.getValue.dps.workStatus = WorkStatus.CHARGING) →
      (RoboVac.goHome env s).2.2.filter isSetMsg = [])
    ∧ (¬(env.getValue.dps.workStatus = WorkStatus.COMPLETED
        ∨ env.getValue.dps.workStatus = WorkStatus.CHARGING) →
      (RoboVac.goHome env s).2.2.filter isSetMsg
        = [Msg.set true [(RoboVac.GO_HOME, DpValue.b true)]]) := by
  have hc' : (s.connected || env.connectOk) = true := by simp [hc]
  obtain ⟨pre, s1, hq, hpre, hconn⟩ := getWorkStatus_forced_success env s hc' hg
  have hpf : pre.filter isSetMsg = [] := filter_set_of_findConnect hpre
  constructor
  · intro hws
    unfold RoboVac.goHome
    rw [hq]
    simp only [if_pos hws]
    simp [List.filter_append, hpf, isSetMsg]
  · intro hws
    unfold RoboVac.goHome
    rw [hq]
    simp only [if_neg hws]
    obtain ⟨pre2, s2, hw2, hpre2, _, _, _⟩ := doWork_success env s1
      (fun s3 => RoboVac.set env [(RoboVac.GO_HOME, DpValue.b true)] s3) (by simp [hconn])
    rw [hw2]
    have hpf2 : pre2.filter isSetMsg = [] := filter_set_of_findConnect hpre2
    unfold RoboVac.set
    cases hset : env.setOk <;>
      simp [List.filter_append, hpf, hpf2, isSetMsg]

/-- Witness for C3: with work status Charging no set message is issued,
and with work status Running exactly the single go-home set is issued. -/
theorem goHome_only_when_not_docked_witness :
    (RoboVac.goHome
      { now := 0, findOk := true, connectOk := true, getOk := true,
        getValue := { devId := "", dps := { sampleDps 50 with workStatus := "Charging" } },
        setOk := true }
      (sampleState 50 0)).2.2.filter isSetMsg = []
    ∧ (RoboVac.goHome
      { now := 0, findOk := true, connectOk := true, getOk := true,
        getValue := { devId := "", dps := { sampleDps 50 with workStatus := "Running" } },
        setOk := true }
      (sampleState 50 0)).2.2.filter isSetMsg
        = [Msg.set true [(RoboVac.GO_HOME, DpValue.b true)]] :=
  ⟨(goHome_only_when_not_docked _ _ rfl rfl).1 (by right; rfl),
   (goHome_only_when_not_docked _ _ rfl rfl).2 (by decide)⟩

/-- C7: with a fresh cached snapshot, the low-battery GET pushes the
low-battery value exactly when the battery level is strictly below 30, and
the normal value whenever the level is at least 30 (so also at exactly 30). -/
theorem lowBattery_iff_below_30 (env : Env) (s : RoboVacState) (st : StatusResponse) (t : Nat)
    (hs : s.statuses = some st) (ht : s.lastStatusUpdate = some t)
    (hfresh : env.now - t ≤ RoboVac.maxStatusUpdateAge) :
    (st.dps.batteryLevel < 30 →
      (EufyRoboVacAccessory.getStatusLowBattery env s).1
        = [CbVal.n StatusLowBattery.BATTERY_LEVEL_LOW])
    ∧ (30 ≤ st.dps.batteryLevel →
      (EufyRoboVacAccessory.getStatusLowBattery env s).1
        = [CbVal.n StatusLowBattery.BATTERY_LEVEL_NORMAL]) := by
  have hstale : RoboVac.stale env.now s.lastStatusUpdate = false := by
    rw [ht]
    simp only [RoboVac.stale, decide_eq_false_iff_not]
    omega
  have hq : RoboVac.getStatuses env false s = (.ok s.statuses, s, []) := by
    simp [RoboVac.getStatuses, hstale]
  constructor
  · intro hlt
    unfold EufyRoboVacAccessory.getStatusLowBattery RoboVac.getBatteyLevel
    rw [hq, hs]
    simp [if_pos hlt]
  · intro hge
    unfold EufyRoboVacAccessory.getStatusLowBattery RoboVac.getBatteyLevel
    rw [hq, hs]
    simp [if_neg (not_lt.mpr hge)]

/-- Witness for C7: battery 29 pushes the low value, battery 30 pushes
the normal value. -/
theorem lowBattery_iff_below_30_witness :
    (EufyRoboVacAccessory.getStatusLowBattery (sampleEnv 1000 0) (sampleState 29 500)).1
      = [CbVal.n StatusLowBattery.BATTERY_LEVEL_LOW]
    ∧ (EufyRoboVacAccessory.getStatusLowBattery (sampleEnv 1000 0) (sampleState 30 500)).1
      = [CbVal.n StatusLowBattery.BATTERY_LEVEL_NORMAL] :=
  ⟨(lowBattery_iff_below_30 _ _ (sampleStatus 29) 500 rfl rfl (by decide)).1 (by decide),
   (lowBattery_iff_below_30 _ _ (sampleStatus 30) 500 rfl rfl (by decide)).2 (by decide)⟩

/-- Recognises the settle-delay event in an adapter event trace. -/
def isSleepEv : Ev → Bool
  | .sleep _ => true
  | _ => false

/-- Recognises a transport message event that writes the GO_HOME code. -/
def isGoHomeSetEv : Ev → Bool
  | .msg m => isGoHomeSet m
  | _ => false

/-- setPlayPause on a successful path: result ok, trace made of
discovery/connect traffic followed by exactly the single play-pause set. -/
theorem setPlayPause_success (env : Env) (b : Bool) (s : RoboVacState)
    (hc : (s.connected || env.connectOk) = true) (hset : env.setOk = true) :
    ∃ pre s1, RoboVac.setPlayPause env b s
        = (.ok (), s1, pre ++ [Msg.set true [(RoboVac.PLAY_PAUSE, DpValue.b b)]])
      ∧ (∀ m ∈ pre, m = Msg.find ∨ m = Msg.connect)
      ∧ s1.connected = true := by
  obtain ⟨pre, s1, hw, hpre, hconn, _, _⟩ := doWork_success env s
    (fun s2 => RoboVac.set env [(RoboVac.PLAY_PAUSE, DpValue.b b)] s2) hc
  refine ⟨pre, s1, ?_, hpre, hconn⟩
  unfold RoboVac.setPlayPause
  rw [hw]
  unfold RoboVac.set
  simp [hset]

/-- goHome on a successful transport path resolves successfully. -/
theorem goHome_ok (env : Env) (s : RoboVacState)
    (hc : (s.connected || env.connectOk) = true) (hg : env.getOk = true)
    (hset : env.setOk = true) :
    (RoboVac.goHome env s).1 = .ok () := by
  obtain ⟨pre, s1, hq, hpre, hconn⟩ := getWorkStatus_forced_success env s hc hg
  unfold RoboVac.goHome
  rw [hq]
  by_cases hws : env.getValue.dps.workStatus = WorkStatus.COMPLETED
      ∨ env.getValue.dps.workStatus = WorkStatus.CHARGING
  · simp [if_pos hws]
  · simp only [if_neg hws]
    obtain ⟨pre2, s2, hw2, _, _, _, _⟩ := doWork_success env s1
      (fun s3 => RoboVac.set env [(RoboVac.GO_HOME, DpValue.b true)] s3) (by simp [hconn])
    rw [hw2]
    unfold RoboVac.set
    simp [hset]

/-- C8: on a successful transport path, a SET of the clean state to false
produces the setPlayPause(false) traffic, then the 2000 ms settle delay,
then the goHome traffic, then the completion signal, in that order; a SET
to true produces only the setPlayPause(true) traffic followed directly by
the completion signal, with no settle delay and no go-home write. -/
theorem setCleanState_sequencing (env : Env) (s : RoboVacState)
    (hc : env.connectOk = true) (hg : env.getOk = true) (hset : env.setOk = true) :
    (EufyRoboVacAccessory.setCleanState env false s).2.2
      = ((RoboVac.setPlayPause env false s).2.2).map Ev.msg
        ++ Ev.sleep 2000
          :: (((RoboVac.goHome env (RoboVac.setPlayPause env false s).2.1).2.2).map Ev.msg
            ++ [Ev.callback])
    ∧ (EufyRoboVacAccessory.setCleanState env true s).2.2
      = ((RoboVac.setPlayPause env true s).2.2).map Ev.msg ++ [Ev.callback]
    ∧ (EufyRoboVacAccessory.setCleanState env true s).2.2.filter isSleepEv = []
    ∧ (EufyRoboVacAccessory.setCleanState env true s).2.2.filter isGoHomeSetEv = [] := by
  obtain ⟨pre, s1, hps, hpre, hconn⟩ := setPlayPause_success env false s (by simp [hc]) hset
  obtain ⟨pre', s1', hps', hpre', hconn'⟩ := setPlayPause_success env true s (by simp [hc]) hset
  have htrue : (EufyRoboVacAccessory.setCleanState env true s).2.2
      = ((RoboVac.setPlayPause env true s).2.2).map Ev.msg ++ [Ev.callback] := by
    unfold EufyRoboVacAccessory.setCleanState
    rw [hps']
    simp
  refine ⟨?_, htrue, ?_, ?_⟩
  · have hgo := goHome_ok env s1 (by simp [hconn]) hg hset
    rcases hG : RoboVac.goHome env s1 with ⟨rg, s2, t2⟩
    rw [hG] at hgo
    simp only at hgo
    subst hgo
    unfold EufyRoboVacAccessory.setCleanState
    rw [hps]
    simp only [Bool.false_eq_true, if_false]
    rw [hG]
  · rw [htrue, hps']
    rw [List.filter_eq_nil_iff]
    intro e he
    simp only [List.mem_append, List.mem_map, List.mem_singleton] at he
    rcases he with ⟨m, _, rfl⟩ | rfl <;> simp [isSleepEv]
  · rw [htrue, hps']
    rw [List.filter_eq_nil_iff]
    intro e he
    simp only [List.mem_append, List.mem_map, List.mem_singleton] at he
    rcases he with ⟨m, hm, rfl⟩ | rfl
    · rcases hm with hm | rfl
      · rcases hpre' m hm with h | h <;> simp [h, isGoHomeSetEv, isGoHomeSet]
      · simp [isGoHomeSetEv, isGoHomeSet, RoboVac.PLAY_PAUSE, RoboVac.GO_HOME]
    · simp [isGoHomeSetEv]

/-- Witness for C8 at a concrete all-succeeding environment. -/
theorem setCleanState_sequencing_witness :
    (EufyRoboVacAccessory.setCleanState (sampleEnv 0 50) false (sampleState 50 0)).2.2
      = ((RoboVac.setPlayPause (sampleEnv 0 50) false (sampleState 50 0)).2.2).map Ev.msg
        ++ Ev.sleep 2000
          :: (((RoboVac.goHome (sampleEnv 0 50)
                (RoboVac.setPlayPause (sampleEnv 0 50) false (sampleState 50 0)).2.1).2.2).map Ev.msg
            ++ [Ev.callback])
    ∧ (EufyRoboVacAccessory.setCleanState (sampleEnv 0 50) true (sampleState 50 0)).2.2
      = ((RoboVac.setPlayPause (sampleEnv 0 50) true (sampleState 50 0)).2.2).map Ev.msg
        ++ [Ev.callback]
    ∧ (EufyRoboVacAccessory.setCleanState (sampleEnv 0 50) true (sampleState 50 0)).2.2.filter
        isSleepEv = []
    ∧ (EufyRoboVacAccessory.setCleanState (sampleEnv 0 50) true (sampleState 50 0)).2.2.filter
        isGoHomeSetEv = [] :=
  setCleanState_sequencing (sampleEnv 0 50) (sampleState 50 0) rfl rfl rfl

/-- Every callback invocation recorded by a getCleanState run that was
entered with the no-op retry callback is tagged non-original. -/
theorem getCleanState_retries_nonoriginal (envs : List Env) (s : RoboVacState) (cfg : Config) :
    (EufyRoboVacAccessory.getCleanState envs s cfg false).filter (fun p => p.1) = [] := by
  induction envs generalizing s with
  | nil => rfl
  | cons env rest ih =>
    unfold EufyRoboVacAccessory.getCleanState
    rcases h : RoboVac.getPlayPause env true s with ⟨r, s1, t⟩
    cases r with
    | ok v => simp
    | error e =>
      cases hs : EufyRoboVacAccessory.setup env cfg with
      | error e2 => simp [hs]
      | ok s2 => simpa [hs] using ih s2

/-- C1 amended: on a failing accessor, the battery-level, charging-state,
low-battery, find-robot and error-detected GET handlers invoke their
completion callback exactly once with the documented safe default (0 or
false); the clean-state GET handler, however, rebuilds the session and
retries with a discarded no-op callback, so its original completion
callback is never invoked on the failure path. -/
theorem get_handlers_default_or_lost_callback :
    (∀ env s e, (RoboVac.getBatteyLevel env false s).1 = .error e →
      (EufyRoboVacAccessory.getBatteryLevel env s).1 = [CbVal.n 0])
    ∧ (∀ env s e, (RoboVac.getWorkStatus env false s).1 = .error e →
      (EufyRoboVacAccessory.getChargingState env s).1 = [CbVal.b false])
    ∧ (∀ env s e, (RoboVac.getBatteyLevel env false s).1 = .error e →
      (EufyRoboVacAccessory.getStatusLowBattery env s).1 = [CbVal.b false])
    ∧ (∀ env s e, (RoboVac.getFindRobot env false s).1 = .error e →
      (EufyRoboVacAccessory.getFindRobot env s).1 = [CbVal.b false])
    ∧ (∀ env s e, (RoboVac.getErrorCode env false s).1 = .error e →
      (EufyRoboVacAccessory.getErrorStatus env s).1 = [CbVal.b false])
    ∧ (∀ env envs s cfg e, (RoboVac.getPlayPause env true s).1 = .error e →
      (EufyRoboVacAccessory.getCleanState (env :: envs) s cfg true).filter
        (fun p => p.1) = []) := by
  refine ⟨?_, ?_, ?_, ?_, ?_, ?_⟩
  · intro env s e h
    unfold EufyRoboVacAccessory.getBatteryLevel
    rcases hx : RoboVac.getBatteyLevel env false s with ⟨r, s1, t⟩
    rw [hx] at h
    simp only at h
    subst h
    rfl
  · intro env s e h
    unfold EufyRoboVacAccessory.getChargingState
    rcases hx : RoboVac.getWorkStatus env false s with ⟨r, s1, t⟩
    rw [hx] at h
    simp only at h
    subst h
    rfl
  · intro env s e h
    unfold EufyRoboVacAccessory.getStatusLowBattery
    rcases hx : RoboVac.getBatteyLevel env false s with ⟨r, s1, t⟩
    rw [hx] at h
    simp only at h
    subst h
    rfl
  · intro env s e h
    unfold EufyRoboVacAccessory.getFindRobot
    rcases hx : RoboVac.getFindRobot env false s with ⟨r, s1, t⟩
    rw [hx] at h
    simp only at h
    subst h
    rfl
  · intro env s e h
    unfold EufyRoboVacAccessory.getErrorStatus
    rcases hx : RoboVac.getErrorCode env false s with ⟨r, s1, t⟩
    rw [hx] at h
    simp only at h
    subst h
    rfl
  · intro env envs s cfg e h
    unfold EufyRoboVacAccessory.getCleanState
    rcases hx : RoboVac.getPlayPause env true s with ⟨r, s1, t⟩
    rw [hx] at h
    simp only at h
    subst h
    cases hs : EufyRoboVacAccessory.setup env cfg with
    | error e2 => simp
    | ok s2 => simpa using getCleanState_retries_nonoriginal envs s2 cfg

/-- Witness for the amended C1 theorem: a connection-refusing environment
makes each accessor fail and each handler push its default, while the
clean-state handler records no invocation of its original callback. -/
theorem get_handlers_default_or_lost_callback_witness :
    ((RoboVac.getBatteyLevel
        { now := 40000, findOk := true, connectOk := false, getOk := true,
          getValue := sampleStatus 50, setOk := true } false
        { connected := false, statuses := none, lastStatusUpdate := none,
          deviceResolved := true }).1 = .error Err.connection
      ∧ (EufyRoboVacAccessory.getBatteryLevel
        { now := 40000, findOk := true, connectOk := false, getOk := true,
          getValue := sampleStatus 50, setOk := true }
        { connected := false, statuses := none, lastStatusUpdate := none,
          deviceResolved := true }).1 = [CbVal.n 0])
    ∧ ((RoboVac.getPlayPause
        { now := 40000, findOk := true, connectOk := false, getOk := true,
          getValue := sampleStatus 50, setOk := true } true
        { connected := false, statuses := none, lastStatusUpdate := none,
          deviceResolved := true }).1 = .error Err.connection
      ∧ (EufyRoboVacAccessory.getCleanState
        [{ now := 40000, findOk := true, connectOk := false, getOk := true,
           getValue := sampleStatus 50, setOk := true }]
        { connected := false, statuses := none, lastStatusUpdate := none,
          deviceResolved := true }
        { deviceId := "device1", localKey := "k", ip := "10.0.0.9", port := 6668 }
        true).filter (fun p => p.1) = []) :=
  ⟨⟨rfl,
    get_handlers_default_or_lost_callback.1
      { now := 40000, findOk := true, connectOk := false, getOk := true,
        getValue := sampleStatus 50, setOk := true }
      { connected := false, statuses := none, lastStatusUpdate := none,
        deviceResolved := true }
      Err.connection rfl⟩,
   ⟨rfl,
    get_handlers_default_or_lost_callback.2.2.2.2.2
      { now := 40000, findOk := true, connectOk := false, getOk := true,
        getValue := sampleStatus 50, setOk := true }
      []
      { connected := false, statuses := none, lastStatusUpdate := none,
        deviceResolved := true }
      { deviceId := "device1", localKey := "k", ip := "10.0.0.9", port := 6668 }
      Err.connection rfl⟩⟩

/-- C1 counterexample: with an accessor failure on the first attempt and a
succeeding retry, the clean-state GET handler invokes only the discarded
no-op retry callback, never the original one handed in by HomeKit - so it
does not invoke its completion callback exactly once with a safe default. -/
theorem getCleanState_skips_original_callback :
    (RoboVac.getPlayPause
        { now := 0, findOk := true, connectOk := false, getOk := true,
          getValue := sampleStatus 50, setOk := true } true
        { connected := false, statuses := none, lastStatusUpdate := none,
          deviceResolved := true }).1 = .error Err.connection
    ∧ EufyRoboVacAccessory.getCleanState
        [{ now := 0, findOk := true, connectOk := false, getOk := true,
           getValue := sampleStatus 50, setOk := true },
         sampleEnv 0 50]
        { connected := false, statuses := none, lastStatusUpdate := none,
          deviceResolved := true }
        { deviceId := "device1", localKey := "k", ip := "10.0.0.9", port := 6668 }
        true
      = [(false, CbVal.b false)] :=
  ⟨rfl, rfl⟩
